import Mathlib

/-!
Verification of the block-causal attention masking and compiled-attention
dispatch subsystem (`src/transformers/integrations/flex_attention.py`).

Shallow embedding conventions:
* A 2-D integer mask tensor of shape (B, S) is a function `Nat → Nat → Nat`
  (row index, column index); values are the non-negative document/padding ids.
* Integer tensors produced by torch integer arithmetic are modelled as `Int`
  valued functions where signed arithmetic matters (chunked document ids).
* A 4-D float tensor is a `Tensor4`: shape metadata plus a total data
  function; indexing inside the kernel only touches in-bounds positions.
* The external accelerator (torch flex attention kernel) is out of src/;
  where a claim depends on it, its behaviour is modelled from the spec and
  marked as such in the doc comment.
-/

namespace FlexAttn

/-- Embeds `torch.nn.functional.pad(attention_mask_2d, value=0, pad=(0, key_length))`
applied to a mask of row width `S`: positions `p < S` keep their value,
every later position reads the padding value 0. -/
def padMask (M : Nat → Nat → Nat) (S : Nat) : Nat → Nat → Nat :=
  fun b p => if p < S then M b p else 0

/-- Width of the padded mask produced by `pad(…, pad=(0, key_length))`:
the pad call appends `key_length` zeros on the right of a width-`S` row,
so the result has width `S + key_length`. -/
def paddedWidth (S keyLength : Nat) : Nat :=
  S + keyLength

/-- Embeds the `document_ids` tensor of `make_flex_block_causal_mask`:
with `attention_chunk_size = None` it is a clone of the padded mask;
with `attention_chunk_size = c` it is `(ones.cumsum(-1) - 1) // c`,
i.e. floor division of the position index by `c` (torch integer `//` is
floor division, `Int.fdiv`). -/
def documentIds (M : Nat → Nat → Nat) (S : Nat) (chunk : Option Int) :
    Nat → Nat → Int :=
  match chunk with
  | none => fun b p => (padMask M S b p : Int)
  | some c => fun _ p => Int.fdiv p c

/-- Embeds `causal_mask_mod` from `make_flex_block_causal_mask`:
`causal = q >= k`, `document = docIds[b,q] == docIds[b,k]`,
`padding = padded_mask[b,q] > 0`, combined as `(causal & padding) & document`. -/
def causal_mask_mod (docIds : Nat → Nat → Int) (padM : Nat → Nat → Nat)
    (b _h q k : Nat) : Bool :=
  let causal : Bool := decide (k ≤ q)
  let document : Bool := decide (docIds b q = docIds b k)
  let padding : Bool := decide (0 < padM b q)
  (causal && padding) && document

/-- The compressed block mask handle returned by the accelerator's
block-mask constructor: shape metadata plus the mask predicate
(`H = None` in the source, so a single head-broadcast predicate). -/
structure BlockMask where
  B : Nat
  qLen : Nat
  kvLen : Nat
  maskMod : Nat → Nat → Nat → Nat → Bool

/-- Errors surfaced by the mask builder. The source performs no explicit
validation; the only failure mode is torch's integer-division-by-zero
`RuntimeError` raised by `// attention_chunk_size` when the chunk size is 0. -/
inductive TorchError
  | zeroDivision
deriving DecidableEq

/-- Embeds `make_flex_block_causal_mask(attention_mask_2d, attention_chunk_size,
query_length, key_length)` for a mask of shape `(B, S)`: pad the mask with
`key_length` zeros, build `document_ids`, close `causal_mask_mod` over both,
and hand the predicate to the block-mask constructor with the given
`Q_LEN`/`KV_LEN`. Division by a zero chunk size raises at the tensor library. -/
def make_flex_block_causal_mask (M : Nat → Nat → Nat) (B S : Nat)
    (chunk : Option Int) (queryLength keyLength : Nat) :
    Except TorchError BlockMask :=
  if chunk = some 0 then
    .error .zeroDivision
  else
    .ok { B := B
          qLen := queryLength
          kvLen := keyLength
          maskMod := causal_mask_mod (documentIds M S chunk) (padMask M S) }

/-- True when the mask builder returns a block mask rather than raising. -/
def buildsOk (r : Except TorchError BlockMask) : Bool :=
  match r with
  | .ok _ => true
  | .error _ => false

/-- The packed example mask `[[1, 1, 1, 2, 2, 2, 0]]` from the source docstring. -/
def exampleMask : Nat → Nat → Nat :=
  fun b p => if b = 0 then [1, 1, 1, 2, 2, 2, 0].getD p 0 else 0

/-- C1: with `attention_chunk_size = None`, the predicate built by
`make_flex_block_causal_mask` is true iff `q ≥ k`, `M[b,q] = M[b,k]` and
`M[b,q] > 0`; it is independent of the head index, and it is false for every
`k` whenever `M[b,q] = 0`. -/
theorem mask_predicate_characterization
    (M : Nat → Nat → Nat) (B S queryLength keyLength : Nat) (b h h' q k : Nat) :
    make_flex_block_causal_mask M B S none queryLength keyLength =
      .ok ⟨B, queryLength, keyLength,
        causal_mask_mod (documentIds M S none) (padMask M S)⟩ ∧
    (q < S → k < S →
      (causal_mask_mod (documentIds M S none) (padMask M S) b h q k = true ↔
        (k ≤ q ∧ M b q = M b k ∧ 0 < M b q))) ∧
    causal_mask_mod (documentIds M S none) (padMask M S) b h q k =
      causal_mask_mod (documentIds M S none) (padMask M S) b h' q k ∧
    (q < S → M b q = 0 →
      causal_mask_mod (documentIds M S none) (padMask M S) b h q k = false) := by
  refine ⟨by simp [make_flex_block_causal_mask], ?_, rfl, ?_⟩
  · intro hq hk
    simp only [causal_mask_mod, documentIds, padMask, if_pos hq, if_pos hk,
      Bool.and_eq_true, decide_eq_true_eq, Nat.cast_inj]
    tauto
  · intro hq hM
    simp [causal_mask_mod, padMask, if_pos hq, hM]

/-- Witness for C1 on the docstring example mask `[[1,1,1,2,2,2,0]]` at
`q = 6` (a padding position), `k = 3`. -/
theorem mask_predicate_characterization_witness :
    (causal_mask_mod (documentIds exampleMask 7 none) (padMask exampleMask 7)
        0 0 6 3 = true ↔
      (3 ≤ 6 ∧ exampleMask 0 6 = exampleMask 0 3 ∧ 0 < exampleMask 0 6)) ∧
    causal_mask_mod (documentIds exampleMask 7 none) (padMask exampleMask 7)
        0 0 6 3 = false := by
  have h := mask_predicate_characterization exampleMask 1 7 7 7 0 0 1 6 3
  exact ⟨h.2.1 (by decide) (by decide), h.2.2.2 (by decide) (by decide)⟩

/-- Counterexample to C2: padding a width-3 mask with `key_length = 2` gives
width `3 + 2 = 5`, not `key_length = 2`, and even though `key_length < S`
the builder succeeds rather than failing with a `ShapeError`. -/
theorem pad_width_counterexample :
    paddedWidth 3 2 = 5 ∧ ¬ paddedWidth 3 2 = 2 ∧
    buildsOk (make_flex_block_causal_mask exampleMask 1 3 none 3 2) = true := by
  refine ⟨rfl, by decide, rfl⟩

/-- C2 amended: the builder right-pads the mask with `key_length` additional
zeros, producing width `S + key_length` (positions at or beyond `S` read 0),
and it never fails: in particular no error is raised when `key_length < S`. -/
theorem pad_width_amended (M : Nat → Nat → Nat) (B S queryLength keyLength : Nat) :
    paddedWidth S keyLength = S + keyLength ∧
    (∀ b p, S ≤ p → padMask M S b p = 0) ∧
    buildsOk (make_flex_block_causal_mask M B S none queryLength keyLength) = true := by
  refine ⟨rfl, ?_, rfl⟩
  intro b p hp
  simp [padMask, Nat.not_lt.mpr hp]

/-- C4: with `attention_chunk_size = c > 0` the builder assigns document id
`p // c` (floor division) to every position `p`, independent of the original
mask values and of the row. -/
theorem chunked_document_ids (M M' : Nat → Nat → Nat)
    (B S S' queryLength keyLength : Nat) (c : Int) (hc : 0 < c) (b b' p : Nat) :
    make_flex_block_causal_mask M B S (some c) queryLength keyLength =
      .ok ⟨B, queryLength, keyLength,
        causal_mask_mod (documentIds M S (some c)) (padMask M S)⟩ ∧
    documentIds M S (some c) b p = Int.fdiv p c ∧
    documentIds M S (some c) b p = documentIds M' S' (some c) b' p := by
  refine ⟨?_, rfl, rfl⟩
  have : (some c : Option Int) ≠ some 0 := by
    intro h
    exact absurd (Option.some_inj.mp h) (by omega)
  simp [make_flex_block_causal_mask, this]

/-- Witness for C4: chunk size 2 on the example mask, position 5 gets
document id `5 // 2 = 2`. -/
theorem chunked_document_ids_witness :
    documentIds exampleMask 7 (some 2) 0 5 = Int.fdiv 5 2 ∧
    documentIds exampleMask 7 (some 2) 0 5 = documentIds exampleMask 9 (some 2) 1 5 := by
  have h := chunked_document_ids exampleMask exampleMask 1 7 9 7 7 2 (by decide) 0 1 5
  exact ⟨h.2.1, h.2.2⟩

/-- Counterexample to C9: a negative `attention_chunk_size` is not rejected:
the builder succeeds (no `ConfigurationError`), silently computing floor
divisions; e.g. with chunk `-2`, position 5 gets document id `-3`. -/
theorem negative_chunk_counterexample :
    buildsOk (make_flex_block_causal_mask exampleMask 1 7 (some (-2)) 7 7) = true ∧
    documentIds exampleMask 7 (some (-2)) 0 5 = -3 := by
  exact ⟨rfl, by decide⟩

/-- C9 amended: the builder performs no chunk-size validation: every negative
chunk size is accepted and document ids are floor divisions by it; only a zero
chunk size fails, and with the tensor library's integer-division-by-zero error,
not a `ConfigurationError`. -/
theorem nonpositive_chunk_amended (M : Nat → Nat → Nat)
    (B S queryLength keyLength : Nat) (c : Int) (hc : c < 0) (b p : Nat) :
    buildsOk (make_flex_block_causal_mask M B S (some c) queryLength keyLength) = true ∧
    documentIds M S (some c) b p = Int.fdiv p c ∧
    make_flex_block_causal_mask M B S (some 0) queryLength keyLength =
      .error .zeroDivision := by
  have : (some c : Option Int) ≠ some 0 := by
    intro h
    exact absurd (Option.some_inj.mp h) (by omega)
  refine ⟨?_, rfl, by simp [make_flex_block_causal_mask]⟩
  simp [make_flex_block_causal_mask, this, buildsOk]

/-- Witness for C9's amended statement at chunk size `-1`. -/
theorem nonpositive_chunk_amended_witness :
    buildsOk (make_flex_block_causal_mask exampleMask 1 7 (some (-1)) 7 7) = true ∧
    documentIds exampleMask 7 (some (-1)) 0 5 = Int.fdiv 5 (-1) := by
  have h := nonpositive_chunk_amended exampleMask 1 7 7 7 (-1) (by decide) 0 5
  exact ⟨h.1, h.2.1⟩

/-- C10: with `attention_chunk_size = None`, whenever the built predicate
allows `(b,h,q,k)`, the padded mask value at the key position `[b,k]` is
strictly positive: key-side padding is never attended, even though the
predicate has no explicit key-side padding check. -/
theorem allowed_implies_key_not_padding (M : Nat → Nat → Nat) (S b h q k : Nat)
    (hallow : causal_mask_mod (documentIds M S none) (padMask M S) b h q k = true) :
    0 < padMask M S b k := by
  simp only [causal_mask_mod, Bool.and_eq_true, decide_eq_true_eq] at hallow
  obtain ⟨⟨-, hpad⟩, hdoc⟩ := hallow
  simp only [documentIds] at hdoc
  have h : padMask M S b q = padMask M S b k := by exact_mod_cast hdoc
  rw [← h]
  exact hpad

/-- Witness for C10 on the example mask at the allowed pair `q = 5`, `k = 3`. -/
theorem allowed_implies_key_not_padding_witness :
    0 < padMask exampleMask 7 0 3 :=
  allowed_implies_key_not_padding exampleMask 7 0 0 5 3 (by decide)

/-- A 4-D tensor: shape `(n0, n1, n2, n3)` plus a total indexing function
(only in-bounds positions are ever read by the embedded code). -/
structure Tensor4 (α : Type) where
  shape : Nat × Nat × Nat × Nat
  data : Nat → Nat → Nat → Nat → α

/-- Embeds `causal_mask[:, :, :, : key_len]`: the last axis is clipped to
`min` of its width and `key_len`; surviving entries are unchanged. -/
def sliceLastDim {α : Type} (t : Tensor4 α) (len : Nat) : Tensor4 α :=
  { shape := (t.shape.1, t.shape.2.1, t.shape.2.2.1, min t.shape.2.2.2 len)
    data := t.data }

/-- Embeds `repeat_kv`: `hidden_states[:, :, None, :, :]
.expand(b, Hkv, n_rep, s, d).reshape(b, Hkv * n_rep, s, d)`. The reshape
merges the (head, copy) axes, so output head `j` decomposes as
`(j / n_rep, j % n_rep)` and reads input head `j / n_rep`: interleaved
`torch.repeat_interleave` semantics, not a tile. -/
def repeat_kv {α : Type} (t : Tensor4 α) (nRep : Nat) : Tensor4 α :=
  if nRep = 1 then t
  else
    { shape := (t.shape.1, t.shape.2.1 * nRep, t.shape.2.2.1, t.shape.2.2.2)
      data := fun b h s d => t.data b (h / nRep) s d }

/-- The `attention_mask` argument of `flex_attention_forward`: either a
precomputed `BlockMask` or a dense additive tensor. -/
inductive AttentionMaskInput
  | block (bm : BlockMask)
  | dense (t : Tensor4 ℝ)

/-- Embeds the `score_mod` closure of `flex_attention_forward`: in order,
(1) `score = softcap * tanh(score / softcap)` when `softcap` is set,
(2) `score = score + causal_mask[batch_idx][0][q_idx][kv_idx]` when a dense
mask is present, (3) `score = score + head_mask[batch_idx][head_idx][0][0]`
when a head mask is present. -/
noncomputable def score_mod (softcap : Option ℝ) (causalMask : Option (Tensor4 ℝ))
    (head_mask : Option (Tensor4 ℝ)) (score : ℝ) (b h q k : Nat) : ℝ :=
  let s1 : ℝ :=
    match softcap with
    | some cap => cap * Real.tanh (score / cap)
    | none => score
  let s2 : ℝ :=
    match causalMask with
    | some m => s1 + m.data b 0 q k
    | none => s1
  match head_mask with
  | some hm => s2 + hm.data b h 0 0
  | none => s2

/-- The argument bundle `flex_attention_forward` hands to
`compile_friendly_flex_attention` (the compiled kernel): tensors after
grouped-query handling, the assembled `score_mod`, the block mask, the
dense mask captured by `score_mod`, and the `enable_gqa` flag. -/
structure FlexCall where
  query : Tensor4 ℝ
  key : Tensor4 ℝ
  value : Tensor4 ℝ
  scoreMod : ℝ → Nat → Nat → Nat → Nat → ℝ
  blockMask : Option BlockMask
  denseMask : Option (Tensor4 ℝ)
  enableGqa : Bool

/-- Embeds `flex_attention_forward` up to the kernel invocation: mask branch
selection (`BlockMask` vs dense), slicing the dense mask's last axis to
`key.shape[-2]`, assembling `score_mod`, and the grouped-query handling on
`num_local_query_heads = query.shape[1]` with the power-of-two test
`(n & (n - 1)) == 0`. -/
noncomputable def flex_attention_forward (query key value : Tensor4 ℝ)
    (attention_mask : AttentionMaskInput) (softcap : Option ℝ)
    (head_mask : Option (Tensor4 ℝ)) : FlexCall :=
  let blockMask : Option BlockMask :=
    match attention_mask with
    | .block bm => some bm
    | .dense _ => none
  let causalMask : Option (Tensor4 ℝ) :=
    match attention_mask with
    | .block _ => none
    | .dense t => some (sliceLastDim t key.shape.2.2.1)
  let G := query.shape.2.1
  let powTwo : Bool := (G &&& (G - 1)) == 0
  { query := query
    key := if powTwo then key else repeat_kv key G
    value := if powTwo then value else repeat_kv value G
    scoreMod := score_mod softcap causalMask head_mask
    blockMask := blockMask
    denseMask := causalMask
    enableGqa := powTwo }

/-- If the code's power-of-two test fails, the head count is at least 3. -/
theorem powTwoCheck_false_ne_one {n : Nat} (h : ((n &&& (n - 1)) == 0) = false) :
    n ≠ 1 := by
  intro h1
  subst h1
  simp at h

/-- Counterexample to C3: with `Hkv = 2` key/value heads and `G = 3` query
heads (not a power of two), the materialized key has `Hkv * G = 6` heads,
which does not match the query's head axis of 3. -/
theorem gqa_dispatch_counterexample :
    (flex_attention_forward ⟨(1, 3, 1, 1), fun _ _ _ _ => 0⟩
        ⟨(1, 2, 1, 1), fun _ _ _ _ => 0⟩ ⟨(1, 2, 1, 1), fun _ _ _ _ => 0⟩
        (.block ⟨1, 1, 1, fun _ _ _ _ => false⟩) none none).key.shape.2.1 = 6 ∧
    (⟨(1, 3, 1, 1), fun _ _ _ _ => (0 : ℝ)⟩ : Tensor4 ℝ).shape.2.1 = 3 ∧
    ¬ (6 = 3) := by
  refine ⟨rfl, rfl, by decide⟩

/-- C3 amended: when `G = query.shape[1]` is not a power of two, key and
value are replicated by a factor of `G` with interleaved semantics (output
head `j` reads input head `j / G`), yielding `Hkv * G` materialized heads —
which equals the query's head count only when `Hkv = 1` — and the native
grouped-query flag is disabled; when `G` is a power of two, key and value
are passed un-replicated and the flag is enabled. -/
theorem gqa_dispatch (query key value : Tensor4 ℝ)
    (attention_mask : AttentionMaskInput) (softcap : Option ℝ)
    (head_mask : Option (Tensor4 ℝ)) :
    (((query.shape.2.1 &&& (query.shape.2.1 - 1)) == 0) = false →
      (flex_attention_forward query key value attention_mask softcap head_mask).key
          = repeat_kv key query.shape.2.1 ∧
      (flex_attention_forward query key value attention_mask softcap head_mask).value
          = repeat_kv value query.shape.2.1 ∧
      (flex_attention_forward query key value attention_mask softcap head_mask).enableGqa
          = false ∧
      (repeat_kv key query.shape.2.1).shape.2.1 = key.shape.2.1 * query.shape.2.1 ∧
      (∀ b j s d, (repeat_kv key query.shape.2.1).data b j s d
          = key.data b (j / query.shape.2.1) s d)) ∧
    (((query.shape.2.1 &&& (query.shape.2.1 - 1)) == 0) = true →
      (flex_attention_forward query key value attention_mask softcap head_mask).key = key ∧
      (flex_attention_forward query key value attention_mask softcap head_mask).value = value ∧
      (flex_attention_forward query key value attention_mask softcap head_mask).enableGqa
          = true) := by
  constructor
  · intro hpow
    have hne : query.shape.2.1 ≠ 1 := powTwoCheck_false_ne_one hpow
    refine ⟨?_, ?_, ?_, ?_, ?_⟩
    · simp [flex_attention_forward, hpow]
    · simp [flex_attention_forward, hpow]
    · simp [flex_attention_forward, hpow]
    · simp [repeat_kv, hne]
    · intro b j s d
      simp [repeat_kv, hne]
  · intro hpow
    exact ⟨by simp [flex_attention_forward, hpow],
      by simp [flex_attention_forward, hpow],
      by simp [flex_attention_forward, hpow]⟩

/-- Witness for C3's amended statement: `G = 3` query heads (non power of
two) with 2 kv heads, and `G = 4` (power of two). -/
theorem gqa_dispatch_witness :
    (flex_attention_forward ⟨(1, 3, 1, 1), fun _ _ _ _ => 0⟩
        ⟨(1, 2, 1, 1), fun _ _ _ _ => 0⟩ ⟨(1, 2, 1, 1), fun _ _ _ _ => 0⟩
        (.block ⟨1, 1, 1, fun _ _ _ _ => false⟩) none none).enableGqa = false ∧
    (flex_attention_forward ⟨(1, 4, 1, 1), fun _ _ _ _ => 0⟩
        ⟨(1, 2, 1, 1), fun _ _ _ _ => 0⟩ ⟨(1, 2, 1, 1), fun _ _ _ _ => 0⟩
        (.block ⟨1, 1, 1, fun _ _ _ _ => false⟩) none none).enableGqa = true := by
  constructor
  · exact ((gqa_dispatch ⟨(1, 3, 1, 1), fun _ _ _ _ => 0⟩
      ⟨(1, 2, 1, 1), fun _ _ _ _ => 0⟩ ⟨(1, 2, 1, 1), fun _ _ _ _ => 0⟩
      (.block ⟨1, 1, 1, fun _ _ _ _ => false⟩) none none).1 (by decide)).2.2.1
  · exact ((gqa_dispatch ⟨(1, 4, 1, 1), fun _ _ _ _ => 0⟩
      ⟨(1, 2, 1, 1), fun _ _ _ _ => 0⟩ ⟨(1, 2, 1, 1), fun _ _ _ _ => 0⟩
      (.block ⟨1, 1, 1, fun _ _ _ _ => false⟩) none none).2 (by decide)).2.2

/-- C6: when the mask is a `BlockMask`, it is passed directly as the sparse
predicate and no dense additive mask enters score post-processing; otherwise
the mask is treated as dense, its last axis sliced to the key length
`key.shape[-2]`, and `score_mod` applies, in order: the softcap transform,
the addition of `mask[batch, 0, q, k]` (only head-slot 0 is read), and the
addition of `head_mask[batch, head, 0, 0]`. -/
theorem mask_branch_and_score_order (query key value : Tensor4 ℝ)
    (bm : BlockMask) (m bias : Tensor4 ℝ) (cap : ℝ) :
    ((flex_attention_forward query key value (.block bm) (some cap)
        (some bias)).blockMask = some bm ∧
     (flex_attention_forward query key value (.block bm) (some cap)
        (some bias)).denseMask = none ∧
     (∀ s : ℝ, ∀ b h q k : Nat,
       (flex_attention_forward query key value (.block bm) (some cap)
          (some bias)).scoreMod s b h q k
         = cap * Real.tanh (s / cap) + bias.data b h 0 0)) ∧
    ((flex_attention_forward query key value (.dense m) (some cap)
        (some bias)).blockMask = none ∧
     (flex_attention_forward query key value (.dense m) (some cap)
        (some bias)).denseMask = some (sliceLastDim m key.shape.2.2.1) ∧
     (sliceLastDim m key.shape.2.2.1).shape.2.2.2
         = min m.shape.2.2.2 key.shape.2.2.1 ∧
     (∀ b h q k : Nat,
       (sliceLastDim m key.shape.2.2.1).data b h q k = m.data b h q k) ∧
     (∀ s : ℝ, ∀ b h q k : Nat,
       (flex_attention_forward query key value (.dense m) (some cap)
          (some bias)).scoreMod s b h q k
         = (cap * Real.tanh (s / cap) + m.data b 0 q k) + bias.data b h 0 0)) := by
  refine ⟨⟨rfl, rfl, fun s b h q k => rfl⟩,
          ⟨rfl, rfl, rfl, fun b h q k => rfl, fun s b h q k => rfl⟩⟩

/-- The hyperbolic tangent rewritten over the doubled exponential. -/
theorem tanh_eq_one_sub (x : ℝ) :
    Real.tanh x = 1 - 2 / (Real.exp (2 * x) + 1) := by
  have hE : 0 < Real.exp x := Real.exp_pos x
  have h2 : Real.exp (2 * x) = Real.exp x * Real.exp x := by
    rw [two_mul, Real.exp_add]
  rw [Real.tanh_eq_sinh_div_cosh, Real.sinh_eq, Real.cosh_eq, Real.exp_neg, h2]
  have hden : Real.exp x + (Real.exp x)⁻¹ ≠ 0 := by positivity
  have hden2 : Real.exp x * Real.exp x + 1 ≠ 0 := by positivity
  field_simp
  ring

/-- `tanh` lies strictly between `-1` and `1`. -/
theorem tanh_mem_Ioo (x : ℝ) : Real.tanh x ∈ Set.Ioo (-1 : ℝ) 1 := by
  rw [tanh_eq_one_sub]
  have h : (0 : ℝ) < Real.exp (2 * x) + 1 := by positivity
  have hexp : (0 : ℝ) < Real.exp (2 * x) := Real.exp_pos _
  constructor
  · have hlt : 2 / (Real.exp (2 * x) + 1) < 2 := by
      rw [div_lt_iff₀ h]
      nlinarith
    linarith
  · have hpos : 0 < 2 / (Real.exp (2 * x) + 1) := by positivity
    linarith

/-- `tanh` is monotone. -/
theorem tanh_monotone : Monotone Real.tanh := by
  intro s t hst
  rw [tanh_eq_one_sub, tanh_eq_one_sub]
  have h1 : (0 : ℝ) < Real.exp (2 * s) + 1 := by positivity
  have h2 : Real.exp (2 * s) ≤ Real.exp (2 * t) := by
    exact Real.exp_le_exp.mpr (by linarith)
  have h3 : 2 / (Real.exp (2 * t) + 1) ≤ 2 / (Real.exp (2 * s) + 1) := by
    gcongr
  linarith

/-- C5: with a softcap `cap > 0` configured (and no dense mask or head
bias), the post-processed score always lies strictly inside `(-cap, cap)`
and is monotone in the raw score. -/
theorem softcap_bounds_and_monotone (cap : ℝ) (hcap : 0 < cap) (b h q k : Nat) :
    (∀ s : ℝ, score_mod (some cap) none none s b h q k ∈ Set.Ioo (-cap) cap) ∧
    (∀ s t : ℝ, s ≤ t →
      score_mod (some cap) none none s b h q k
        ≤ score_mod (some cap) none none t b h q k) := by
  constructor
  · intro s
    have hmem := tanh_mem_Ioo (s / cap)
    simp only [score_mod]
    exact ⟨by nlinarith [hmem.1], by nlinarith [hmem.2]⟩
  · intro s t hst
    simp only [score_mod]
    have hdiv : s / cap ≤ t / cap := (div_le_div_iff_of_pos_right hcap).mpr hst
    exact mul_le_mul_of_nonneg_left (tanh_monotone hdiv) (le_of_lt hcap)

/-- Witness for C5 at `cap = 1`, raw score `0`. -/
theorem softcap_bounds_and_monotone_witness :
    score_mod (some 1) none none 0 0 0 0 0 ∈ Set.Ioo (-1 : ℝ) 1 :=
  (softcap_bounds_and_monotone 1 one_pos 0 0 0 0).1 0

/-- The class-level mutable state of `WrappedFlexAttention` (`_instance`,
`_is_flex_compiled`, `_compiled_flex_attention`) together with a supply of
fresh handle ids modelling distinct results of `torch.compile`. -/
structure CacheState where
  instanceExists : Bool
  isFlexCompiled : Bool
  compiledFlexAttention : Option Nat
  nextHandleId : Nat
deriving DecidableEq

/-- Embeds one evaluation of `WrappedFlexAttention()()` as performed by
`compile_friendly_flex_attention`: `__new__` creates the singleton instance
when `_instance is None`; `__init__` compiles `flex_attention` only when
`_is_flex_compiled` is false, storing the handle and setting the flag;
`__call__` returns `_compiled_flex_attention`. -/
def wrappedFlexAttentionCall (s : CacheState) : CacheState × Option Nat :=
  let s1 := { s with instanceExists := true }
  let s2 :=
    if s1.isFlexCompiled then s1
    else
      { s1 with
        compiledFlexAttention := some s1.nextHandleId
        nextHandleId := s1.nextHandleId + 1
        isFlexCompiled := true }
  (s2, s2.compiledFlexAttention)

/-- Fresh-process state: no instance yet, nothing compiled. -/
def initialCacheState : CacheState :=
  { instanceExists := false
    isFlexCompiled := false
    compiledFlexAttention := none
    nextHandleId := 0 }

/-- Cache state after `n` accessor calls from process start. -/
def cacheStateAfter : Nat → CacheState
  | 0 => initialCacheState
  | n + 1 => (wrappedFlexAttentionCall (cacheStateAfter n)).1

/-- C7: from process start, every accessor call returns the identical
compiled handle (the one minted on first use), and after any number of
calls exactly one compilation has happened (`nextHandleId` stays at 1,
`_is_flex_compiled` stays set). -/
theorem compiled_kernel_cache_idempotent (n : Nat) :
    (wrappedFlexAttentionCall (cacheStateAfter n)).2 = some 0 ∧
    cacheStateAfter (n + 1) =
      { instanceExists := true
        isFlexCompiled := true
        compiledFlexAttention := some 0
        nextHandleId := 1 } := by
  induction n with
  | zero => exact ⟨rfl, rfl⟩
  | succ m ih =>
    have hstate := ih.2
    constructor
    · show (wrappedFlexAttentionCall (cacheStateAfter (m + 1))).2 = some 0
      rw [hstate]
      rfl
    · show (wrappedFlexAttentionCall (cacheStateAfter (m + 1))).1 = _
      rw [hstate]
      rfl

/-- Modelled from the spec: the external accelerator's batched attention
primitive (the compiled flex attention kernel, out of scope in src/):
scaled dot-product scores over `D` features, softmax over the `Lk` key
positions, weighted sum of values. `kvHead h` selects which key/value head
serves query head `h`: the identity when the grouped-query flag is off,
and the virtual group broadcast `h / (Hq / Hkv)` when it is on. -/
noncomputable def kernelAttentionOut (Lk D : Nat) (kvHead : Nat → Nat)
    (q kf vf : Nat → Nat → Nat → Nat → ℝ) (scale : ℝ) (b h qi d : Nat) : ℝ :=
  let score : Nat → ℝ := fun ki =>
    scale * ∑ j ∈ Finset.range D, q b h qi j * kf b (kvHead h) ki j
  let w : Nat → ℝ := fun ki =>
    Real.exp (score ki) / ∑ kj ∈ Finset.range Lk, Real.exp (score kj)
  ∑ ki ∈ Finset.range Lk, w ki * vf b (kvHead h) ki d

/-- Modelled from the spec: the native-broadcast path — key and value are
passed un-replicated, the grouped-query flag is on, and query head `h` is
served by kv head `h / (Hq / Hkv)`. -/
noncomputable def nativeGqaPath (Hq Hkv Lk D : Nat)
    (q : Nat → Nat → Nat → Nat → ℝ) (key value : Tensor4 ℝ) (scale : ℝ)
    (b h qi d : Nat) : ℝ :=
  kernelAttentionOut Lk D (fun h => h / (Hq / Hkv)) q key.data value.data
    scale b h qi d

/-- The materialized-replication path of `flex_attention_forward`: key and
value are replicated with `repeat_kv` by the code's factor
`G = num_local_query_heads = Hq` and the grouped-query flag is off, so each
query head is served by the kv head of the same index. -/
noncomputable def materializedPath (Hq Lk D : Nat)
    (q : Nat → Nat → Nat → Nat → ℝ) (key value : Tensor4 ℝ) (scale : ℝ)
    (b h qi d : Nat) : ℝ :=
  kernelAttentionOut Lk D (fun h => h) q (repeat_kv key Hq).data
    (repeat_kv value Hq).data scale b h qi d

/-- Counterexample to C8: with `Hq = 4` query heads (a power of two) and
`Hkv = 2` kv heads, one key position and one feature, value head `h`
holding the constant `h`: the native-broadcast path gives query head 3 the
value of kv head `3 / (4 / 2) = 1`, while the materialized path (factor-4
`repeat_kv`) gives it kv head `3 / 4 = 0`; the outputs are 1 and 0. -/
theorem gqa_paths_counterexample :
    nativeGqaPath 4 2 1 1 (fun _ _ _ _ => 0)
        ⟨(1, 2, 1, 1), fun _ _ _ _ => 0⟩ ⟨(1, 2, 1, 1), fun _ h _ _ => (h : ℝ)⟩
        1 0 3 0 0 = 1 ∧
    materializedPath 4 1 1 (fun _ _ _ _ => 0)
        ⟨(1, 2, 1, 1), fun _ _ _ _ => 0⟩ ⟨(1, 2, 1, 1), fun _ h _ _ => (h : ℝ)⟩
        1 0 3 0 0 = 0 ∧
    (1 : ℝ) ≠ 0 := by
  refine ⟨?_, ?_, one_ne_zero⟩
  · norm_num [nativeGqaPath, kernelAttentionOut, Finset.sum_range_one]
  · norm_num [materializedPath, kernelAttentionOut, repeat_kv,
      Finset.sum_range_one]

/-- C8 amended: the two paths agree exactly (in the real-valued model,
where "within floating tolerance" is equality) when `Hkv = 1`: only then
does the code's replication factor `G` make the materialized kv head
assignment `h / G` coincide with the native broadcast `h / (G / Hkv)`. -/
theorem gqa_paths_agree_single_kv_head (Hq Lk D : Nat)
    (q : Nat → Nat → Nat → Nat → ℝ) (key value : Tensor4 ℝ) (scale : ℝ)
    (b h qi d : Nat) :
    materializedPath Hq Lk D q key value scale b h qi d
      = nativeGqaPath Hq 1 Lk D q key value scale b h qi d := by
  by_cases h1 : Hq = 1
  · subst h1
    simp [materializedPath, nativeGqaPath, repeat_kv, kernelAttentionOut,
      Nat.div_one]
  · simp [materializedPath, nativeGqaPath, repeat_kv, h1, kernelAttentionOut,
      Nat.div_one]

end FlexAttn
